import Mathlib

/-!
# Verification of the mbox log-analysis pipeline (`extraction.py`)

Shallow embedding of the pipeline in `src/extraction.py`:

* `extract_and_transform` — regex scan of each log line for
  `From (\S+) (\w{3}\s+\w{3}\s+\d{1,2}\s+\d{2}:\d{2}:\d{2}\s+\d{4})`,
  followed by `datetime.strptime` under two formats and `strftime` to the
  canonical `"%Y-%m-%d %H:%M:%S"` form;
* `save_to_mongodb` — full replace of the `user_history` collection;
* `transfer_to_sqlite` — read-back from the collection and full replace of the
  SQLite `user_history` table (AUTOINCREMENT surrogate ids, NOT NULL columns);
* `run_sql_queries` — ten fixed aggregate queries, each wrapped in its own
  `try/except`.

Strings are modelled as `List Char`.  Character classes (`\s`, `\w`, `\d`)
are modelled at their ASCII meaning.  I/O (file read, socket connections) is
abstracted away: the input file is a list of lines, the MongoDB collection a
list of documents, the SQLite database an explicit state value.
-/

set_option maxRecDepth 8000

/-! ## Character classes (ASCII fragment of Python's `\s`, `\w`, `\d`, `\S`) -/

/-- ASCII whitespace recognised by Python's regex `\s`:
space, tab, newline, vertical tab, form feed, carriage return. -/
def isPySpace (c : Char) : Bool :=
  c = ' ' || c = '\t' || c = '\n' || c = '\x0b' || c = '\x0c' || c = '\r'

/-- ASCII decimal digit, Python's regex `\d`. -/
def isPyDigit (c : Char) : Bool :=
  '0' ≤ c && c ≤ '9'

/-- ASCII word character, Python's regex `\w`: letter, digit or underscore. -/
def isPyWord (c : Char) : Bool :=
  c.isAlpha || isPyDigit c || c = '_'

/-- Numeric value of an ASCII digit character. -/
def digitVal (c : Char) : Nat := c.toNat - 48

/-- Value of a two-character ASCII digit pair. -/
def twoDigitVal (a b : Char) : Nat := 10 * digitVal a + digitVal b

/-! ## The line pattern

`re.compile(r'From (\S+) (\w{3}\s+\w{3}\s+\d{1,2}\s+\d{2}:\d{2}:\d{2}\s+\d{4})')`
searched with `pattern.search(line)` (leftmost match).

The pattern is deterministic under Python's backtracking semantics:

* `(\S+) ` — `\S+` is greedy; any shorter match of `\S+` ends inside the same
  run of non-whitespace characters, so the following literal space can only
  match after the *maximal* non-whitespace run.
* `\s+` followed by `\w{3}`, `\d{1,2}`, `\d{2}` or `\d{4}` — any shorter match
  of the greedy `\s+` leaves a whitespace character where a word/digit
  character is required, so `\s+` always consumes the maximal whitespace run.
* `\d{1,2}` followed by `\s+` — let `k` be the length of the maximal digit run.
  If `k = 1` or `k = 2` the greedy match takes the whole run and the following
  character is a non-digit.  If `k ≥ 3`, both the two-digit and (after
  backtracking) the one-digit attempt leave a digit where `\s+` requires
  whitespace, so the pattern fails.
* `\d{2}` followed by `:` — exactly two digits, no alternatives.

Hence the whole pattern has at most one match at each start position, computed
below without backtracking. -/

/-- Attempt to match the date group
`\w{3}\s+\w{3}\s+\d{1,2}\s+\d{2}:\d{2}:\d{2}\s+\d{4}` at the head of `cs`,
returning the matched span (capture group 2). -/
def matchDateGroup (cs : List Char) : Option (List Char) := do
  -- \w{3}
  let (w1, r1) ← match cs with
    | a :: b :: c :: r =>
      if isPyWord a && isPyWord b && isPyWord c then some ([a, b, c], r) else none
    | _ => none
  -- \s+ (maximal, nonempty)
  let ws1 := r1.takeWhile isPySpace
  let r2 := r1.dropWhile isPySpace
  if ws1.isEmpty then none else
  -- \w{3}
  let (w2, r3) ← match r2 with
    | a :: b :: c :: r =>
      if isPyWord a && isPyWord b && isPyWord c then some ([a, b, c], r) else none
    | _ => none
  -- \s+
  let ws2 := r3.takeWhile isPySpace
  let r4 := r3.dropWhile isPySpace
  if ws2.isEmpty then none else
  -- \d{1,2} (maximal digit run of length 1 or 2; see determinism note above)
  let day := r4.takeWhile isPyDigit
  let r5 := r4.dropWhile isPyDigit
  if day.length = 0 || day.length > 2 then none else
  -- \s+
  let ws3 := r5.takeWhile isPySpace
  let r6 := r5.dropWhile isPySpace
  if ws3.isEmpty then none else
  -- \d{2}:\d{2}:\d{2}
  let (tim, r7) ← match r6 with
    | h1 :: h2 :: ':' :: m1 :: m2 :: ':' :: s1 :: s2 :: r =>
      if isPyDigit h1 && isPyDigit h2 && isPyDigit m1 && isPyDigit m2 &&
         isPyDigit s1 && isPyDigit s2 then
        some ([h1, h2, ':', m1, m2, ':', s1, s2], r)
      else none
    | _ => none
  -- \s+
  let ws4 := r7.takeWhile isPySpace
  let r8 := r7.dropWhile isPySpace
  if ws4.isEmpty then none else
  -- \d{4}
  let y ← match r8 with
    | y1 :: y2 :: y3 :: y4 :: _ =>
      if isPyDigit y1 && isPyDigit y2 && isPyDigit y3 && isPyDigit y4 then
        some [y1, y2, y3, y4]
      else none
    | _ => none
  pure (w1 ++ ws1 ++ w2 ++ ws2 ++ day ++ ws3 ++ tim ++ ws4 ++ y)

/-- Attempt to match the whole pattern at the head of `cs`, returning the two
capture groups `(email, date_str)`. -/
def matchPatternAt (cs : List Char) : Option (List Char × List Char) :=
  match cs with
  | 'F' :: 'r' :: 'o' :: 'm' :: ' ' :: rest =>
    -- (\S+) followed by a literal space
    let email := rest.takeWhile (fun c => !isPySpace c)
    let r1 := rest.dropWhile (fun c => !isPySpace c)
    if email.isEmpty then none
    else
      match r1 with
      | ' ' :: r2 => (matchDateGroup r2).map (fun d => (email, d))
      | _ => none
  | _ => none

/-- Model of `pattern.search(line)`: try each start position left to right, return the
first (leftmost) match's capture groups. -/
def searchLine : List Char → Option (List Char × List Char)
  | [] => none
  | c :: rest =>
    match matchPatternAt (c :: rest) with
    | some r => some r
    | none => searchLine rest

/-! ## `datetime.strptime` under the two formats

`CPython Lib/_strptime.py` compiles a format string to a regex
(`TimeRE.pattern`); in that compilation every whitespace run of the format is
replaced by `\s+`.  Consequently the two formats of the source,
`"%a %b %d %H:%M:%S %Y"` and `"%a %b  %d %H:%M:%S %Y"`, compile to the *same*
regex:

  `(?P<a>mon|tue|wed|thu|fri|sat|sun)\s+(?P<b>jan|...|dec)\s+`
  `(?P<d>3[0-1]|[1-2]\d|0[1-9]|[1-9]| [1-9])\s+`
  `(?P<H>2[0-3]|[0-1]\d|\d):(?P<M>[0-5]\d|\d):(?P<S>6[0-1]|[0-5]\d|\d)\s+`
  `(?P<Y>\d\d\d\d)`

matched case-insensitively with `re.match`, after which `_strptime` raises
`ValueError` unless the whole string was consumed, and `datetime.strptime`
finally validates the fields through the `datetime` constructor.

Determinism of this regex under backtracking (same style of argument as for
the line pattern): each `\s+` is followed by an alternation whose branches
start with a letter or a digit — except `%d`, whose branch `" [1-9]"` starts
with a space.  That branch only fires when the preceding `\s+` gives back one
space, which consumes exactly the same characters and produces the same day
value as the `[1-9]` branch with the space inside `\s+`, so the day value is
independent of the split.  The numeric alternations reduce to: take the
maximal digit run `k`; `k = 1` gives a single-digit value, `k = 2` a
two-digit value that must lie in the branch ranges, and `k ≥ 3` fails because
both the two-digit and the backtracked one-digit attempt leave a digit where
a non-digit (`\s`, `:` or end) is required. -/

/-- Parsed broken-down time, as produced by `datetime.strptime`. -/
structure PyDateTime where
  year : Nat
  month : Nat
  day : Nat
  hour : Nat
  minute : Nat
  second : Nat
deriving Repr, DecidableEq

/-- Lowercased three-letter weekday abbreviations (`%a` alternatives). -/
def weekdayAbbrs : List (List Char) :=
  [['m','o','n'], ['t','u','e'], ['w','e','d'], ['t','h','u'],
   ['f','r','i'], ['s','a','t'], ['s','u','n']]

/-- Lowercased three-letter month abbreviations (`%b` alternatives), in
month order: index `i` is month `i + 1`. -/
def monthAbbrs : List (List Char) :=
  [['j','a','n'], ['f','e','b'], ['m','a','r'], ['a','p','r'],
   ['m','a','y'], ['j','u','n'], ['j','u','l'], ['a','u','g'],
   ['s','e','p'], ['o','c','t'], ['n','o','v'], ['d','e','c']]

/-- Directive `%a`: three characters, case-insensitively one of the weekday
abbreviations.  The parsed weekday is discarded by `datetime.strptime`. -/
def parseWeekday (cs : List Char) : Option (List Char) :=
  match cs with
  | a :: b :: c :: rest =>
    if [a.toLower, b.toLower, c.toLower] ∈ weekdayAbbrs then some rest else none
  | _ => none

/-- Directive `%b`: three characters, case-insensitively a month abbreviation; yields
the month number `1..12`. -/
def parseMonth (cs : List Char) : Option (Nat × List Char) :=
  match cs with
  | a :: b :: c :: rest =>
    match monthAbbrs.findIdx? (· = [a.toLower, b.toLower, c.toLower]) with
    | some i => some (i + 1, rest)
    | none => none
  | _ => none

/-- Format whitespace `\s+`: maximal nonempty whitespace run. -/
def parseWs (cs : List Char) : Option (List Char) :=
  if (cs.takeWhile isPySpace).isEmpty then none else some (cs.dropWhile isPySpace)

/-- Directive `%d` = `3[0-1]|[1-2]\d|0[1-9]|[1-9]| [1-9]` in context (the leading-space
branch merged into the preceding `\s+`, see module note): maximal digit run of
length 1 (value `1..9`) or length 2 (value `1..31`). -/
def parseDay (cs : List Char) : Option (Nat × List Char) :=
  let ds := cs.takeWhile isPyDigit
  let rest := cs.dropWhile isPyDigit
  match ds with
  | [a] => if 1 ≤ digitVal a then some (digitVal a, rest) else none
  | [a, b] =>
    if 1 ≤ twoDigitVal a b && twoDigitVal a b ≤ 31 then some (twoDigitVal a b, rest) else none
  | _ => none

/-- Directive `%H` = `2[0-3]|[0-1]\d|\d`: maximal digit run of length 1 (value `0..9`)
or length 2 (value `0..23`). -/
def parseHour (cs : List Char) : Option (Nat × List Char) :=
  let ds := cs.takeWhile isPyDigit
  let rest := cs.dropWhile isPyDigit
  match ds with
  | [a] => some (digitVal a, rest)
  | [a, b] => if twoDigitVal a b ≤ 23 then some (twoDigitVal a b, rest) else none
  | _ => none

/-- Directive `%M` = `[0-5]\d|\d`: maximal digit run of length 1 or 2, value `0..59`. -/
def parseMinute (cs : List Char) : Option (Nat × List Char) :=
  let ds := cs.takeWhile isPyDigit
  let rest := cs.dropWhile isPyDigit
  match ds with
  | [a] => some (digitVal a, rest)
  | [a, b] => if twoDigitVal a b ≤ 59 then some (twoDigitVal a b, rest) else none
  | _ => none

/-- Directive `%S` = `6[0-1]|[0-5]\d|\d`: maximal digit run of length 1 or 2, value
`0..61` (leap seconds pass the regex and are rejected later by the
`datetime` constructor). -/
def parseSecond (cs : List Char) : Option (Nat × List Char) :=
  let ds := cs.takeWhile isPyDigit
  let rest := cs.dropWhile isPyDigit
  match ds with
  | [a] => some (digitVal a, rest)
  | [a, b] => if twoDigitVal a b ≤ 61 then some (twoDigitVal a b, rest) else none
  | _ => none

/-- Literal `:` of the format. -/
def parseColon (cs : List Char) : Option (List Char) :=
  match cs with
  | ':' :: rest => some rest
  | _ => none

/-- Directive `%Y` = `\d\d\d\d` at the end of the pattern; `_strptime` then raises
`ValueError: unconverted data remains` unless the match ends the string, so
exactly four digits followed by the end of input are accepted. -/
def parseYearEnd (cs : List Char) : Option Nat :=
  match cs with
  | [a, b, c, d] =>
    if isPyDigit a && isPyDigit b && isPyDigit c && isPyDigit d then
      some (1000 * digitVal a + 100 * digitVal b + 10 * digitVal c + digitVal d)
    else none
  | _ => none

/-- Gregorian leap-year rule (`datetime`'s calendar). -/
def isLeapYear (y : Nat) : Bool :=
  y % 4 = 0 && (y % 100 ≠ 0 || y % 400 = 0)

/-- Number of days of month `m` of year `y` (`datetime`'s calendar). -/
def daysInMonth (y m : Nat) : Nat :=
  if m = 2 then (if isLeapYear y then 29 else 28)
  else if m = 4 || m = 6 || m = 9 || m = 11 then 30
  else 31

/-- The `datetime(year, month, day, hour, minute, second)` constructor:
validates `MINYEAR = 1 ≤ year ≤ MAXYEAR = 9999`, `1 ≤ month ≤ 12`,
`1 ≤ day ≤ days in month`, `hour ≤ 23`, `minute ≤ 59`, `second ≤ 59`, raising
`ValueError` otherwise. -/
def mkPyDateTime (y mo d h mi s : Nat) : Option PyDateTime :=
  if 1 ≤ y ∧ y ≤ 9999 ∧ 1 ≤ mo ∧ mo ≤ 12 ∧ 1 ≤ d ∧ d ≤ daysInMonth y mo ∧
     h ≤ 23 ∧ mi ≤ 59 ∧ s ≤ 59 then
    some ⟨y, mo, d, h, mi, s⟩
  else none

/-- Model of `datetime.strptime(date_str, fmt)` for the (shared) compiled regex of the
two formats of the source: `none` models a raised `ValueError`. -/
def strptimeMail (cs : List Char) : Option PyDateTime := do
  let r1 ← parseWeekday cs
  let r2 ← parseWs r1
  let (mo, r3) ← parseMonth r2
  let r4 ← parseWs r3
  let (d, r5) ← parseDay r4
  let r6 ← parseWs r5
  let (h, r7) ← parseHour r6
  let r8 ← parseColon r7
  let (mi, r9) ← parseMinute r8
  let r10 ← parseColon r9
  let (s, r11) ← parseSecond r10
  let r12 ← parseWs r11
  let y ← parseYearEnd r12
  mkPyDateTime y mo d h mi s

/-- First attempt `datetime.strptime(date_str, "%a %b %d %H:%M:%S %Y")` of the
of the `try` block. -/
def strptimeFmt1 : List Char → Option PyDateTime := strptimeMail

/-- Second attempt `datetime.strptime(date_str, "%a %b  %d %H:%M:%S %Y")`, the
attempt, from the `except ValueError` branch.  Its format string differs from
the first only in the whitespace run before `%d`, which `_strptime` compiles
to the same `\s+`, so it accepts exactly the same strings. -/
def strptimeFmt2 : List Char → Option PyDateTime := strptimeMail

/-! ## `strftime("%Y-%m-%d %H:%M:%S")`

`datetime.strftime` delegates to the platform C `strftime`.  On the reference
platform (glibc/Linux, where the repository's Python runs) `%m`, `%d`, `%H`,
`%M`, `%S` are zero-padded to two digits, while `%Y` prints the year as a
plain decimal number *without* padding — year 24 prints as `"24"`, not
`"0024"`. -/

/-- ASCII digit character of `n % 10`. -/
def digitChar (n : Nat) : Char := Char.ofNat (48 + n % 10)

/-- Two-digit zero-padded field (`%m`, `%d`, `%H`, `%M`, `%S`; all source
values are `< 100`). -/
def pad2 (n : Nat) : List Char := [digitChar (n / 10), digitChar n]

/-- glibc `%Y`: the year as an unpadded decimal number.  `datetime` years are
`1..9999` (at most four digits), so four cases suffice. -/
def yearField (y : Nat) : List Char :=
  if y < 10 then [digitChar y]
  else if y < 100 then [digitChar (y / 10), digitChar y]
  else if y < 1000 then [digitChar (y / 100), digitChar (y / 10), digitChar y]
  else [digitChar (y / 1000), digitChar (y / 100), digitChar (y / 10), digitChar y]

/-- Model of `date_obj.strftime("%Y-%m-%d %H:%M:%S")`. -/
def strftimeCanonical (dt : PyDateTime) : List Char :=
  yearField dt.year ++ '-' :: pad2 dt.month ++ '-' :: pad2 dt.day ++
  ' ' :: pad2 dt.hour ++ ':' :: pad2 dt.minute ++ ':' :: pad2 dt.second

/-! ## The extractor -/

/-- One extracted record, `{"email": ..., "date": ...}`. -/
structure LogRecord where
  email : List Char
  date : List Char
deriving Repr, DecidableEq

/-- The `try`/`except` of the source: first format, then on `ValueError` the
second; a `ValueError` of the second attempt propagates (`none`). -/
def normalizeDate (ds : List Char) : Option (List Char) :=
  match strptimeFmt1 ds with
  | some dt => some (strftimeCanonical dt)
  | none =>
    match strptimeFmt2 ds with
    | some dt => some (strftimeCanonical dt)
    | none => none

/-- The loop body of `extract_and_transform` for one line: no match — no
record; match with parseable date — a record; match with unparseable date —
uncaught `ValueError` (`Except.error`). -/
def processLine (line : List Char) : Except Unit (Option LogRecord) :=
  match searchLine line with
  | none => Except.ok none
  | some (email, dateStr) =>
    match normalizeDate dateStr with
    | some fd => Except.ok (some ⟨email, fd⟩)
    | none => Except.error ()

/-- Model of `extract_and_transform(log_file)`: the file as a list of lines (read in
order, line terminators stripped — the pattern cannot match across or up to a
final newline since it ends in `\d{4}`).  An uncaught `ValueError` on any
line aborts the whole pass. -/
def extract_and_transform : List (List Char) → Except Unit (List LogRecord)
  | [] => Except.ok []
  | l :: ls =>
    match processLine l with
    | Except.error e => Except.error e
    | Except.ok none => extract_and_transform ls
    | Except.ok (some r) => (extract_and_transform ls).map (r :: ·)

instance {ε α : Type} [DecidableEq ε] [DecidableEq α] : DecidableEq (Except ε α) := fun x y =>
  match x, y with
  | .ok a, .ok b => if h : a = b then isTrue (by rw [h]) else isFalse (by simp [h])
  | .error a, .error b => if h : a = b then isTrue (by rw [h]) else isFalse (by simp [h])
  | .ok _, .error _ => isFalse (by simp)
  | .error _, .ok _ => isFalse (by simp)

/-! ## The primary store (`save_to_mongodb`)

The `user_history` collection of the `log_analysis` MongoDB database is
modelled as the list of its documents, in insertion order (`collection.find()`
with no sort returns them in that natural order for this workload). -/

/-- Model of `save_to_mongodb(data)`: `delete_many({})` clears the collection, then
`insert_many(data)` inserts all records.  PyMongo's `insert_many` validates
its argument *before* any insert and raises
`TypeError("documents must be a non-empty list")` when `data` is empty — at
which point the collection has already been cleared.  Result: the raised
error (if any) and the collection's new contents. -/
def save_to_mongodb (data : List LogRecord) (_mongo : List LogRecord) :
    Option String × List LogRecord :=
  if data.isEmpty then (some "documents must be a non-empty list", [])
  else (none, data)

/-! ## The relational store (`transfer_to_sqlite`) -/

/-- One row of the SQLite `user_history` table:
`(id INTEGER PRIMARY KEY AUTOINCREMENT, email TEXT NOT NULL, date TEXT NOT NULL)`. -/
structure SqliteRow where
  id : Nat
  email : List Char
  date : List Char
deriving Repr, DecidableEq

/-- The `user_history.db` SQLite database: whether the `user_history` table
exists, the AUTOINCREMENT sequence (largest id ever assigned, persisted in
`sqlite_sequence` and *not* reset by `DELETE FROM`), and the rows. -/
structure SqliteDB where
  tableExists : Bool
  seq : Nat
  rows : List SqliteRow
deriving Repr, DecidableEq

/-- Assign consecutive AUTOINCREMENT ids `seq + 1, seq + 2, …` to the
inserted records. -/
def assignIds (seq : Nat) : List LogRecord → List SqliteRow
  | [] => []
  | r :: rs => ⟨seq + 1, r.email, r.date⟩ :: assignIds (seq + 1) rs

/-- Model of `transfer_to_sqlite()`: read all documents back from the MongoDB
collection, `CREATE TABLE IF NOT EXISTS user_history (...)`,
`DELETE FROM user_history` (which keeps the AUTOINCREMENT sequence), then
insert one row per document via `executemany`. -/
def transfer_to_sqlite (mongo : List LogRecord) (db : SqliteDB) : SqliteDB :=
  let db1 := if db.tableExists then db else ⟨true, 0, []⟩
  { tableExists := true
    seq := db1.seq + mongo.length
    rows := assignIds db1.seq mongo }

/-- The `save_to_mongodb(data)` → `transfer_to_sqlite()` stage pair of
`main`: on a `save_to_mongodb` error the run aborts and the transfer never
executes. -/
def runStorePair (data : List LogRecord) (mongo : List LogRecord) (db : SqliteDB) :
    Option String × List LogRecord × SqliteDB :=
  match save_to_mongodb data mongo with
  | (some e, mongo') => (some e, mongo', db)
  | (none, mongo') => (none, mongo', transfer_to_sqlite mongo' db)

/-- Model of `main()` up to the store stages: extract (an uncaught `ValueError` aborts),
save to MongoDB (a raised error aborts), transfer to SQLite.  The analysis
stage reads only the SQLite state and is modelled separately. -/
def mainPipeline (lines : List (List Char)) (mongo : List LogRecord) (db : SqliteDB) :
    Option String × List LogRecord × SqliteDB :=
  match extract_and_transform lines with
  | Except.error _ => (some "ValueError", mongo, db)
  | Except.ok data => runStorePair data mongo db

/-! ## The analysis queries (`run_sql_queries`)

SQL string helpers for the query texts the claims are about. -/

/-- SQLite `instr(X, Y)` for a single-character needle: 1-based position of
the first occurrence of `c` in `cs`, `0` if absent. -/
def instrChar (cs : List Char) (c : Char) : Nat :=
  match cs with
  | [] => 0
  | a :: rest =>
    if a = c then 1
    else match instrChar rest c with
      | 0 => 0
      | n + 1 => n + 2

/-- SQLite `substr(X, N)` for `N ≥ 1`: the characters of `cs` from 1-based
position `n` to the end. -/
def substrFrom (cs : List Char) (n : Nat) : List Char :=
  cs.drop (n - 1)

/-- The `domain` column of query 4: `substr(email, instr(email, '@') + 1)`. -/
def query4Domain (email : List Char) : List Char :=
  substrFrom email (instrChar email '@' + 1)

/-- SQLite `date(X)` on a TEXT value: the `YYYY-MM-DD` prefix of a valid
`YYYY-MM-DD[ HH:MM[:SS]]` datetime string, `NULL` (here `none`) on a
non-datetime string.  Validity is modelled for the shapes this table can
hold: four digits, two dashes, two-digit month `01..12`, two-digit day
`01..31`, and either nothing or a space-separated remainder after position
10.  (Canonical pipeline timestamps always satisfy this.) -/
def sqliteDate (cs : List Char) : Option (List Char) :=
  match cs with
  | y1 :: y2 :: y3 :: y4 :: '-' :: m1 :: m2 :: '-' :: d1 :: d2 :: rest =>
    if isPyDigit y1 && isPyDigit y2 && isPyDigit y3 && isPyDigit y4 &&
       isPyDigit m1 && isPyDigit m2 && isPyDigit d1 && isPyDigit d2 &&
       1 ≤ twoDigitVal m1 m2 && twoDigitVal m1 m2 ≤ 12 &&
       1 ≤ twoDigitVal d1 d2 && twoDigitVal d1 d2 ≤ 31 &&
       (rest.isEmpty || rest.head? = some ' ') then
      some [y1, y2, y3, y4, '-', m1, m2, '-', d1, d2]
    else none
  | _ => none

/-- Semantics of `GROUP BY k` with `COUNT(*)`: one `(key, count)` pair per distinct key of
`keys`. -/
def groupCounts {K : Type} [DecidableEq K] (keys : List K) : List (K × Nat) :=
  keys.dedup.map (fun k => (k, keys.count k))

/-- The grouping key of queries 2, 8 and 10: `date(date)`. -/
def dayKey (r : SqliteRow) : Option (List Char) := sqliteDate r.date

/-- Query 2: `SELECT date(date) as day, COUNT(*) FROM user_history GROUP BY day`. -/
def query2 (rows : List SqliteRow) : List (Option (List Char) × Nat) :=
  groupCounts (rows.map dayKey)

/-- Query 4: `SELECT substr(email, instr(email, '@') + 1) as domain, COUNT(*)
FROM user_history GROUP BY domain`. -/
def query4 (rows : List SqliteRow) : List (List Char × Nat) :=
  groupCounts (rows.map (fun r => query4Domain r.email))

/-- Query 5: `SELECT COUNT(*) FROM user_history`. -/
def query5 (rows : List SqliteRow) : Nat := rows.length

/-- Query 10: `SELECT AVG(count) FROM (SELECT COUNT(*) as count FROM
user_history GROUP BY date(date))`.  `AVG` over the per-day counts of the
subquery (the same grouping as query 2); `AVG` of an empty set is `NULL`. -/
def query10 (rows : List SqliteRow) : Option ℚ :=
  let counts := (groupCounts (rows.map dayKey)).map Prod.snd
  if counts.isEmpty then none
  else some (((counts.map (Nat.cast : Nat → ℚ)).sum) / counts.length)

/-! ## The query runner -/

/-- Result rows of one query, as printed. -/
abbrev ResultRows := List (List String)

/-- What `run_sql_queries` prints for one dictionary entry: the description
followed by either the fetched rows or the caught exception's message. -/
inductive QueryOutput where
  | result (desc : String) (rows : ResultRows)
  | failure (desc : String) (err : String)
deriving Repr, DecidableEq

/-- Output block for one `(description, sql)` pair under the execution
environment `exec` (the SQLite engine: may fail with an exception message). -/
def queryOutputFor (exec : String → Except String ResultRows)
    (q : String × String) : QueryOutput :=
  match exec q.2 with
  | Except.ok rows => QueryOutput.result q.1 rows
  | Except.error e => QueryOutput.failure q.1 e

/-- The loop of `run_sql_queries`: for each entry in order, execute the query
inside `try`, printing rows on success and the caught exception on failure;
the loop always continues with the next entry. -/
def run_sql_queries (exec : String → Except String ResultRows) :
    List (String × String) → List QueryOutput
  | [] => []
  | q :: rest => queryOutputFor exec q :: run_sql_queries exec rest

/-- The ten `(description, sql)` entries of the `queries` dict, in the fixed
declared (insertion) order. -/
def sourceQueries : List (String × String) :=
  [("1. Unique Emails", "SELECT DISTINCT email FROM user_history;"),
   ("2. Emails per Day",
    "SELECT date(date) as day, COUNT(*) FROM user_history GROUP BY day;"),
   ("3. First and Last Email per User",
    "SELECT email, MIN(date) AS first_email, MAX(date) AS last_email FROM user_history GROUP BY email;"),
   ("4. Emails per Domain",
    "SELECT substr(email, instr(email, '@') + 1) as domain, COUNT(*) FROM user_history GROUP BY domain;"),
   ("5. Total Number of Emails", "SELECT COUNT(*) FROM user_history;"),
   ("6. Emails Count by Month",
    "SELECT strftime('%Y-%m', date) AS month, COUNT(*) FROM user_history GROUP BY month;"),
   ("7. Email Frequency Ranking",
    "SELECT email, COUNT(*) as count FROM user_history GROUP BY email ORDER BY count DESC;"),
   ("8. Most Active Day",
    "SELECT date(date) as day, COUNT(*) as count FROM user_history GROUP BY day ORDER BY count DESC LIMIT 1;"),
   ("9. Emails by Day of Week",
    "SELECT strftime('%w', date) as weekday, COUNT(*) FROM user_history GROUP BY weekday;"),
   ("10. Average Emails per Day",
    "SELECT AVG(count) FROM (SELECT COUNT(*) as count FROM user_history GROUP BY date(date));")]

/-! ## Specification-side definitions

These two definitions transcribe the *spec's* wording, to be compared with
the behaviour of the definitions above (which are translated from the
source). -/

/-- Spec wording for C2: a string "of exactly 19 characters in the form
`YYYY-MM-DD HH:MM:SS`: zero-padded month, day, hour, minute, second, 4-digit
year, a single space between date and time, and no timezone component". -/
def canonicalShape (cs : List Char) : Bool :=
  match cs with
  | [y1, y2, y3, y4, s1, m1, m2, s2, d1, d2, sp, h1, h2, c1, mi1, mi2, c2, se1, se2] =>
    isPyDigit y1 && isPyDigit y2 && isPyDigit y3 && isPyDigit y4 &&
    s1 = '-' && isPyDigit m1 && isPyDigit m2 && s2 = '-' &&
    isPyDigit d1 && isPyDigit d2 && sp = ' ' &&
    isPyDigit h1 && isPyDigit h2 && c1 = ':' &&
    isPyDigit mi1 && isPyDigit mi2 && c2 = ':' &&
    isPyDigit se1 && isPyDigit se2
  | _ => false

/-- Spec wording for C8: "the substring of `sender_address` strictly after
the first `@`". -/
def afterFirstAt (cs : List Char) : List Char :=
  (cs.dropWhile (· ≠ '@')).drop 1

/-! ## Helper lemmas -/

/-- An extraction error on one line aborts the whole pass, whatever comes
before (as long as it did not itself abort) and after. -/
lemma extract_append_error {pre : List (List Char)} {rs : List LogRecord}
    (hpre : extract_and_transform pre = Except.ok rs)
    {line : List Char} (hline : processLine line = Except.error ())
    (post : List (List Char)) :
    extract_and_transform (pre ++ line :: post) = Except.error () := by
  induction pre generalizing rs with
  | nil => simp [extract_and_transform, hline]
  | cons l ls ih =>
    simp only [extract_and_transform, List.cons_append] at hpre ⊢
    cases h : processLine l with
    | error e => simp [h] at hpre
    | ok o =>
      rw [h] at hpre
      cases o with
      | none => exact ih hpre
      | some r =>
        cases h2 : extract_and_transform ls with
        | error e => simp [h2, Except.map] at hpre
        | ok rs' =>
          show Except.map _ (extract_and_transform (ls ++ line :: post)) = _
          rw [ih h2]; rfl

/-- A line on which the pattern does not match is skipped: it contributes no
record and raises nothing. -/
lemma extract_cons_nomatch {line : List Char} (h : searchLine line = none)
    (rest : List (List Char)) :
    extract_and_transform (line :: rest) = extract_and_transform rest := by
  simp only [extract_and_transform, processLine, h]

/-- A log none of whose lines matches the pattern extracts to the empty
record list. -/
lemma extract_all_nomatch {lines : List (List Char)}
    (h : ∀ l ∈ lines, searchLine l = none) :
    extract_and_transform lines = Except.ok [] := by
  induction lines with
  | nil => rfl
  | cons l ls ih =>
    rw [extract_cons_nomatch (h l (by simp)) ls]
    exact ih (fun x hx => h x (by simp [hx]))

/-! ## C1 — the two-space single-digit-day line -/

/-- C1 (claim as stated, failing part): on the very input the claim says
exercises the two-format retry, the *first* `strptime` attempt already
succeeds — CPython's `_strptime` compiles the whitespace of
`"%a %b %d %H:%M:%S %Y"` to `\s+`, which absorbs the two spaces before the
single-digit day — so no `ValueError` is raised and the `except` branch (the
second format) is never exercised. -/
theorem c1_counterexample :
    strptimeFmt1 ("Mon Jan  5 09:08:07 2024").data =
      some ⟨2024, 1, 5, 9, 8, 7⟩ ∧
    ¬ (strptimeFmt1 ("Mon Jan  5 09:08:07 2024").data = none) := by
  constructor
  · rfl
  · intro h; cases h

/-- C1 (amended): a file containing exactly the line
`"From alice@example.com Mon Jan  5 09:08:07 2024"` extracts to exactly one
record with sender `alice@example.com` and timestamp `2024-01-05 09:08:07`;
the date is parsed by the first format (no retry is involved). -/
theorem c1_extraction :
    extract_and_transform [("From alice@example.com Mon Jan  5 09:08:07 2024").data] =
      Except.ok [⟨("alice@example.com").data, ("2024-01-05 09:08:07").data⟩] := by
  rfl

/-! ## C3 — date-format exhaustion aborts the pass -/

/-- C3: if a line matches the pattern but its captured date string parses
under neither format (both `strptime` calls raise `ValueError`), the second
`ValueError` propagates out of `extract_and_transform`: the whole pass
aborts — no record list is produced, however many well-formed lines precede
or follow the offending one. -/
theorem c3_exhaustion_aborts {line : List Char} {email dateStr : List Char}
    (hmatch : searchLine line = some (email, dateStr))
    (h1 : strptimeFmt1 dateStr = none) (h2 : strptimeFmt2 dateStr = none)
    {pre : List (List Char)} {rs : List LogRecord}
    (hpre : extract_and_transform pre = Except.ok rs)
    (post : List (List Char)) :
    extract_and_transform (pre ++ line :: post) = Except.error () := by
  refine extract_append_error hpre ?_ post
  simp only [processLine, hmatch, normalizeDate, h1, h2]

/-- Witness for C3: `"From a@b Xyz Jan 5 09:08:07 2024"` matches the pattern
(`Xyz` is three word characters) but is no valid weekday, so extraction of a
four-line log aborts even though the other three lines are well-formed. -/
theorem c3_witness :
    extract_and_transform
      [("From alice@example.com Mon Jan  5 09:08:07 2024").data,
       ("From a@b Xyz Jan 5 09:08:07 2024").data,
       ("From bob@example.com Tue Jan 15 23:59:59 2024").data,
       ("Subject: hello").data] = Except.error () := by
  exact @c3_exhaustion_aborts
    (("From a@b Xyz Jan 5 09:08:07 2024").data)
    (("a@b").data) (("Xyz Jan 5 09:08:07 2024").data)
    (by rfl) (by rfl) (by rfl)
    ([("From alice@example.com Mon Jan  5 09:08:07 2024").data])
    ([⟨("alice@example.com").data, ("2024-01-05 09:08:07").data⟩])
    (by rfl)
    [("From bob@example.com Tue Jan 15 23:59:59 2024").data, ("Subject: hello").data]

/-! ## C4 — non-matching lines are silently skipped -/

/-- C4: a line on which the pattern finds no match produces no record and
raises no exception; extraction continues with the remaining lines
unchanged. -/
theorem c4_nomatch_skipped {line : List Char} (h : searchLine line = none)
    (rest : List (List Char)) :
    extract_and_transform (line :: rest) = extract_and_transform rest := by
  exact extract_cons_nomatch h rest

/-- Witness for C4: `"Subject: hello"` does not match, is skipped, and the
following line is still processed. -/
theorem c4_witness :
    searchLine ("Subject: hello").data = none ∧
    extract_and_transform
      [("Subject: hello").data,
       ("From bob@example.com Tue Jan 15 23:59:59 2024").data] =
      Except.ok [⟨("bob@example.com").data, ("2024-01-15 23:59:59").data⟩] := by
  refine ⟨by rfl, ?_⟩
  rw [c4_nomatch_skipped (by rfl) _]
  rfl

/-! ## C2 — shape of the normalized timestamp -/

lemma isPyDigit_digitChar (n : Nat) : isPyDigit (digitChar n) = true := by
  unfold digitChar
  have h : n % 10 < 10 := Nat.mod_lt _ (by omega)
  generalize n % 10 = k at h
  interval_cases k <;> decide

lemma daysInMonth_le_31 (y m : Nat) : daysInMonth y m ≤ 31 := by
  unfold daysInMonth
  split <;> [split <;> omega; skip]
  split <;> omega

/-- Field bounds enforced by the `datetime` constructor. -/
lemma mkPyDateTime_bounds {y mo d h mi s : Nat} {dt : PyDateTime}
    (hmk : mkPyDateTime y mo d h mi s = some dt) :
    1 ≤ dt.year ∧ dt.year ≤ 9999 ∧ 1 ≤ dt.month ∧ dt.month ≤ 12 ∧
    1 ≤ dt.day ∧ dt.day ≤ 31 ∧ dt.hour ≤ 23 ∧ dt.minute ≤ 59 ∧ dt.second ≤ 59 := by
  unfold mkPyDateTime at hmk
  split at hmk
  · cases hmk
    rename_i hcond
    obtain ⟨h1, h2, h3, h4, h5, h6, h7, h8, h9⟩ := hcond
    exact ⟨h1, h2, h3, h4, h5, le_trans h6 (daysInMonth_le_31 y mo), h7, h8, h9⟩
  · cases hmk

/-- Every successful `strptime` result satisfies the `datetime` field
bounds. -/
lemma strptimeMail_bounds {cs : List Char} {dt : PyDateTime}
    (h : strptimeMail cs = some dt) :
    1 ≤ dt.year ∧ dt.year ≤ 9999 ∧ 1 ≤ dt.month ∧ dt.month ≤ 12 ∧
    1 ≤ dt.day ∧ dt.day ≤ 31 ∧ dt.hour ≤ 23 ∧ dt.minute ≤ 59 ∧ dt.second ≤ 59 := by
  simp only [strptimeMail, bind, Option.bind_eq_some] at h
  obtain ⟨r1, -, r2, -, ⟨mo, r3⟩, -, r4, -, ⟨d, r5⟩, -, r6, -, ⟨hh, r7⟩, -,
    r8, -, ⟨mi, r9⟩, -, r10, -, ⟨s, r11⟩, -, r12, -, y, -, hmk⟩ := h
  exact mkPyDateTime_bounds hmk

/-- For a four-digit year, glibc `%Y` prints exactly four digit
characters. -/
lemma yearField_of_four_digits {y : Nat} (h1 : 1000 ≤ y) (h2 : y ≤ 9999) :
    yearField y =
      [digitChar (y / 1000), digitChar (y / 100), digitChar (y / 10), digitChar y] := by
  unfold yearField
  rw [if_neg (by omega), if_neg (by omega), if_neg (by omega)]

/-- Applying `canonicalShape` to an explicit 19-character list with the separators in
place reduces, by one step of the match, to the digit checks. -/
lemma canonicalShape_explicit {a b c d e f g h i j k l m n : Char}
    (ha : isPyDigit a = true) (hb : isPyDigit b = true) (hc : isPyDigit c = true)
    (hd : isPyDigit d = true) (he : isPyDigit e = true) (hf : isPyDigit f = true)
    (hg : isPyDigit g = true) (hh : isPyDigit h = true) (hi : isPyDigit i = true)
    (hj : isPyDigit j = true) (hk : isPyDigit k = true) (hl : isPyDigit l = true)
    (hm : isPyDigit m = true) (hn : isPyDigit n = true) :
    canonicalShape
      [a, b, c, d, '-', e, f, '-', g, h, ' ', i, j, ':', k, l, ':', m, n] = true := by
  have hstep : canonicalShape
      [a, b, c, d, '-', e, f, '-', g, h, ' ', i, j, ':', k, l, ':', m, n] =
      (isPyDigit a && isPyDigit b && isPyDigit c && isPyDigit d &&
       decide ('-' = '-') && isPyDigit e && isPyDigit f && decide ('-' = '-') &&
       isPyDigit g && isPyDigit h && decide (' ' = ' ') &&
       isPyDigit i && isPyDigit j && decide (':' = ':') &&
       isPyDigit k && isPyDigit l && decide (':' = ':') &&
       isPyDigit m && isPyDigit n) := rfl
  rw [hstep, ha, hb, hc, hd, he, hf, hg, hh, hi, hj, hk, hl, hm, hn]
  rfl

/-- The canonical `strftime` output of any `datetime` with a four-digit year
has the spec's 19-character `YYYY-MM-DD HH:MM:SS` shape. -/
lemma canonicalShape_strftime {dt : PyDateTime}
    (hy1 : 1000 ≤ dt.year) (hy2 : dt.year ≤ 9999) :
    canonicalShape (strftimeCanonical dt) = true := by
  unfold strftimeCanonical
  rw [yearField_of_four_digits hy1 hy2]
  simp only [pad2, List.cons_append, List.nil_append]
  exact canonicalShape_explicit (isPyDigit_digitChar _) (isPyDigit_digitChar _)
    (isPyDigit_digitChar _) (isPyDigit_digitChar _) (isPyDigit_digitChar _)
    (isPyDigit_digitChar _) (isPyDigit_digitChar _) (isPyDigit_digitChar _)
    (isPyDigit_digitChar _) (isPyDigit_digitChar _) (isPyDigit_digitChar _)
    (isPyDigit_digitChar _) (isPyDigit_digitChar _) (isPyDigit_digitChar _)

/-- A string of the canonical shape has exactly 19 characters. -/
lemma canonicalShape_length {cs : List Char} (h : canonicalShape cs = true) :
    cs.length = 19 := by
  unfold canonicalShape at h
  split at h
  · rfl
  · cases h

/-- C2 (amended): for every line matching the pattern whose captured date
string parses (under the shared compiled format), *if the parsed year is at
least 1000*, the normalized timestamp is exactly 19 characters in zero-padded
`YYYY-MM-DD HH:MM:SS` form with a single space and no timezone.  (For years
below 1000 the platform `strftime` prints `%Y` without zero-padding and the
string is shorter — see `c2_counterexample`.) -/
theorem c2_canonical_form {line email dateStr : List Char} {dt : PyDateTime}
    (_hmatch : searchLine line = some (email, dateStr))
    (hparse : strptimeMail dateStr = some dt)
    (hyear : 1000 ≤ dt.year) :
    normalizeDate dateStr = some (strftimeCanonical dt) ∧
    canonicalShape (strftimeCanonical dt) = true ∧
    (strftimeCanonical dt).length = 19 := by
  have hb := strptimeMail_bounds hparse
  have hshape := canonicalShape_strftime hyear (by omega)
  refine ⟨?_, hshape, canonicalShape_length hshape⟩
  simp only [normalizeDate, strptimeFmt1, hparse]

/-- Witness for C2: the C1 input line, year 2024. -/
theorem c2_witness :
    searchLine ("From alice@example.com Mon Jan  5 09:08:07 2024").data =
      some (("alice@example.com").data, ("Mon Jan  5 09:08:07 2024").data) ∧
    strptimeMail ("Mon Jan  5 09:08:07 2024").data = some ⟨2024, 1, 5, 9, 8, 7⟩ ∧
    (1000 ≤ (2024 : Nat)) ∧
    normalizeDate ("Mon Jan  5 09:08:07 2024").data =
      some (strftimeCanonical ⟨2024, 1, 5, 9, 8, 7⟩) ∧
    canonicalShape (strftimeCanonical ⟨2024, 1, 5, 9, 8, 7⟩) = true ∧
    (strftimeCanonical (⟨2024, 1, 5, 9, 8, 7⟩ : PyDateTime)).length = 19 := by
  refine ⟨by rfl, by rfl, by omega, ?_⟩
  have h := @c2_canonical_form (("From alice@example.com Mon Jan  5 09:08:07 2024").data)
    (("alice@example.com").data) (("Mon Jan  5 09:08:07 2024").data)
    (⟨2024, 1, 5, 9, 8, 7⟩) (by rfl) (by rfl) (by decide)
  exact ⟨h.1, h.2.1, h.2.2⟩

/-- C2 (claim as stated, failing part): the line
`"From a@b Mon Jan  5 09:08:07 0099"` matches the pattern and its date string
parses under the first format (year 99), but the normalized timestamp is
`"99-01-05 09:08:07"` — 17 characters, not 19: the platform `strftime` does
not zero-pad `%Y`. -/
theorem c2_counterexample :
    searchLine ("From a@b Mon Jan  5 09:08:07 0099").data =
      some (("a@b").data, ("Mon Jan  5 09:08:07 0099").data) ∧
    normalizeDate ("Mon Jan  5 09:08:07 0099").data =
      some (("99-01-05 09:08:07").data) ∧
    ¬ ((("99-01-05 09:08:07").data).length = 19) := by
  refine ⟨by rfl, by rfl, by decide⟩

/-! ## C5 — the transfer preserves the record count -/

lemma assignIds_length (seq : Nat) (recs : List LogRecord) :
    (assignIds seq recs).length = recs.length := by
  induction recs generalizing seq with
  | nil => rfl
  | cons r rs ih => simp [assignIds, ih]

/-- C5: after `transfer_to_sqlite`, the row count of the `user_history`
table — and hence the result of query 5, `SELECT COUNT(*)` — equals the
number of documents read back from the primary store. -/
theorem c5_row_count (mongo : List LogRecord) (db : SqliteDB) :
    (transfer_to_sqlite mongo db).rows.length = mongo.length ∧
    query5 (transfer_to_sqlite mongo db).rows = mongo.length := by
  have h : (transfer_to_sqlite mongo db).rows.length = mongo.length := by
    simp [transfer_to_sqlite, assignIds_length]
  exact ⟨h, h⟩

/-! ## C6 — the average per day is total over distinct days -/

lemma sum_map_add_nat {α : Type} (f g : α → Nat) (l : List α) :
    (l.map (fun x => f x + g x)).sum = (l.map f).sum + (l.map g).sum := by
  induction l with
  | nil => rfl
  | cons a l ih => simp [ih]; omega

lemma sum_map_indicator_zero {K : Type} [DecidableEq K] (a : K) {ks : List K}
    (h : a ∉ ks) : (ks.map (fun k => if k = a then 1 else 0)).sum = 0 := by
  induction ks with
  | nil => rfl
  | cons b bs ih =>
    simp only [List.mem_cons, not_or] at h
    have hba : ¬ b = a := fun hb => h.1 hb.symm
    simp [ih h.2, hba]

lemma sum_map_indicator_one {K : Type} [DecidableEq K] (a : K) {ks : List K}
    (hnd : ks.Nodup) (hmem : a ∈ ks) :
    (ks.map (fun k => if k = a then 1 else 0)).sum = 1 := by
  induction ks with
  | nil => cases hmem
  | cons b bs ih =>
    rcases List.mem_cons.mp hmem with hb | hb
    · subst hb
      have : a ∉ bs := (List.nodup_cons.mp hnd).1
      simp [sum_map_indicator_zero a this]
    · have hba : b ≠ a := by
        rintro rfl; exact (List.nodup_cons.mp hnd).1 hb
      simp [if_neg hba, ih (List.nodup_cons.mp hnd).2 hb]

/-- The fiber sizes of a list over any complete, duplicate-free key list sum
to the list's length. -/
lemma sum_map_count_eq_length {K : Type} [DecidableEq K] (l ks : List K)
    (hnd : ks.Nodup) (hcov : ∀ x ∈ l, x ∈ ks) :
    (ks.map (fun k => l.count k)).sum = l.length := by
  induction l with
  | nil => simp
  | cons a l ih =>
    have ha : a ∈ ks := hcov a (by simp)
    have hcov' : ∀ x ∈ l, x ∈ ks := fun x hx => hcov x (by simp [hx])
    have hcount : ∀ k : K, (a :: l).count k = l.count k + if k = a then 1 else 0 := by
      intro k
      rw [List.count_cons]
      congr 1
      simp only [beq_iff_eq]
      rcases eq_or_ne a k with h | h
      · simp [h]
      · rw [if_neg h, if_neg (Ne.symm h)]
    calc (ks.map (fun k => (a :: l).count k)).sum
        = (ks.map (fun k => l.count k + if k = a then 1 else 0)).sum := by
          congr 1; exact List.map_congr_left (fun k _ => hcount k)
      _ = (ks.map (fun k => l.count k)).sum +
          (ks.map (fun k => if k = a then 1 else 0)).sum :=
            sum_map_add_nat _ _ ks
      _ = l.length + 1 := by rw [ih hcov', sum_map_indicator_one a hnd ha]
      _ = (a :: l).length := by simp

/-- The per-group counts of `groupCounts` sum to the number of keys. -/
lemma groupCounts_sum {K : Type} [DecidableEq K] (keys : List K) :
    ((groupCounts keys).map Prod.snd).sum = keys.length := by
  unfold groupCounts
  rw [List.map_map]
  exact sum_map_count_eq_length keys keys.dedup keys.nodup_dedup
    (fun x hx => List.mem_dedup.mpr hx)

/-- C6: on a non-empty table, query 10 (`AVG` over the subquery's per-day
counts, which use the same `GROUP BY date(date)` as query 2) equals the total
record count (query 5) divided by the number of distinct calendar-day keys —
the number of groups query 2 produces. -/
theorem c6_average_per_day (rows : List SqliteRow) (h : rows ≠ []) :
    query10 rows =
      some ((query5 rows : ℚ) / ((query2 rows).length : ℚ)) ∧
    (query2 rows).length = (rows.map dayKey).dedup.length := by
  constructor
  · have hkeys : rows.map dayKey ≠ [] := by
      intro hc; exact h (List.map_eq_nil_iff.mp hc)
    have hded : (rows.map dayKey).dedup ≠ [] := by
      intro hc; exact hkeys ((List.dedup_eq_nil _).mp hc)
    have hne : ¬ ((groupCounts (rows.map dayKey)).map Prod.snd).isEmpty := by
      simp only [groupCounts, List.map_map, List.isEmpty_iff, List.map_eq_nil_iff]
      exact hded
    unfold query10
    rw [if_neg hne]
    have hsum : (((groupCounts (rows.map dayKey)).map Prod.snd).map
        (Nat.cast : Nat → ℚ)).sum = (rows.length : ℚ) := by
      rw [← Nat.cast_list_sum, groupCounts_sum]
      simp
    have hlen : ((groupCounts (rows.map dayKey)).map Prod.snd).length =
        (query2 rows).length := by
      simp [query2]
    rw [hsum, hlen]
    rfl
  · simp [query2, groupCounts]

/-! ## C7 — idempotence of the store pair -/

/-- The payload of a relational row, surrogate id stripped. -/
def rowPayload (r : SqliteRow) : List Char × List Char := (r.email, r.date)

lemma assignIds_payload (seq : Nat) (recs : List LogRecord) :
    (assignIds seq recs).map rowPayload = recs.map (fun r => (r.email, r.date)) := by
  induction recs generalizing seq with
  | nil => rfl
  | cons r rs ih => simp [assignIds, rowPayload, ih]

/-- C7: running `save_to_mongodb` followed by `transfer_to_sqlite` twice with
the same extracted data yields a relational table with the same row count and
the same multiset of `(sender_address, timestamp)` pairs as running the pair
once (the surrogate ids are the only thing that may differ). -/
theorem c7_idempotent (data : List LogRecord) (mongo : List LogRecord) (db : SqliteDB) :
    ((runStorePair data (runStorePair data mongo db).2.1
        (runStorePair data mongo db).2.2).2.2).rows.length =
      ((runStorePair data mongo db).2.2).rows.length ∧
    (↑(((runStorePair data (runStorePair data mongo db).2.1
        (runStorePair data mongo db).2.2).2.2).rows.map rowPayload) : Multiset (List Char × List Char)) =
      ↑(((runStorePair data mongo db).2.2).rows.map rowPayload) := by
  cases data with
  | nil => exact ⟨rfl, rfl⟩
  | cons r rs =>
    have hlist : ∀ m s, ((runStorePair (r :: rs) m s).2.2).rows.map rowPayload =
        (r :: rs).map (fun x => (x.email, x.date)) := by
      intro m s
      simp [runStorePair, save_to_mongodb, transfer_to_sqlite, assignIds_payload]
    have hlen : ∀ m s, ((runStorePair (r :: rs) m s).2.2).rows.length =
        (r :: rs).length := by
      intro m s
      simp [runStorePair, save_to_mongodb, transfer_to_sqlite, assignIds_length]
    rw [hlen, hlen, hlist, hlist]
    exact ⟨rfl, rfl⟩

/-! ## C8 — the domain of query 4 -/

lemma instrChar_pos_of_mem {cs : List Char} {c : Char} (h : c ∈ cs) :
    ∃ n, instrChar cs c = n + 1 := by
  induction cs with
  | nil => cases h
  | cons a rest ih =>
    by_cases hac : a = c
    · exact ⟨0, by simp [instrChar, hac]⟩
    · have hc : c ∈ rest := by
        rcases List.mem_cons.mp h with h' | h'
        · exact absurd h'.symm hac
        · exact h'
      obtain ⟨n, hn⟩ := ih hc
      exact ⟨n + 1, by simp [instrChar, hac, hn]⟩

/-- C8: for every sender address containing an `@`, the `domain` column
computed by query 4 — `substr(email, instr(email, '@') + 1)` — equals the
substring of the address strictly after the first `@`; and query 4 groups and
counts the table's records by exactly that key. -/
theorem c8_domain (email : List Char) (h : '@' ∈ email) :
    query4Domain email = afterFirstAt email ∧
    ∀ rows : List SqliteRow,
      query4 rows = groupCounts (rows.map (fun r => query4Domain r.email)) := by
  refine ⟨?_, fun rows => rfl⟩
  induction email with
  | nil => cases h
  | cons a rest ih =>
    by_cases hac : a = '@'
    · subst hac
      simp [query4Domain, instrChar, substrFrom, afterFirstAt]
    · have hc : '@' ∈ rest := by
        rcases List.mem_cons.mp h with h' | h'
        · exact absurd h'.symm hac
        · exact h'
      obtain ⟨n, hn⟩ := instrChar_pos_of_mem hc
      have h1 : query4Domain (a :: rest) = rest.drop (n + 1) := by
        simp [query4Domain, instrChar, hac, hn, substrFrom]
      have h2 : query4Domain rest = rest.drop (n + 1) := by
        simp [query4Domain, hn, substrFrom]
      have h3 : afterFirstAt (a :: rest) = afterFirstAt rest := by
        simp [afterFirstAt, List.dropWhile_cons, hac]
      rw [h1, h3, ← h2]
      exact ih hc

/-- Witness for C8: `alice@example.com` has domain `example.com`. -/
theorem c8_witness :
    ('@' ∈ ("alice@example.com").data) ∧
    query4Domain ("alice@example.com").data = afterFirstAt ("alice@example.com").data ∧
    query4Domain ("alice@example.com").data = ("example.com").data := by
  refine ⟨by decide, (c8_domain ("alice@example.com").data (by decide)).1, by rfl⟩

/-! ## C9 — per-query isolation in the analysis runner -/

/-- C9: for *any* behaviour of the query-execution environment — including
one that fails on any single query — the runner emits exactly one output
block per declared query, in the fixed declared order, and the `i`-th block
is determined by the `i`-th query and its own execution result alone: a
failure is caught and reported for that query only and never aborts the run
or affects sibling queries. -/
theorem c9_per_query_isolation (exec : String → Except String ResultRows) :
    (run_sql_queries exec sourceQueries).length = sourceQueries.length ∧
    ∀ i : Nat, (run_sql_queries exec sourceQueries)[i]? =
      (sourceQueries[i]?).map (queryOutputFor exec) := by
  have hgen : ∀ (qs : List (String × String)),
      run_sql_queries exec qs = qs.map (queryOutputFor exec) := by
    intro qs
    induction qs with
    | nil => rfl
    | cons q rest ih => simp [run_sql_queries, ih]
  rw [hgen]
  exact ⟨by simp, fun i => by simp [List.getElem?_map]⟩

/-! ## C10 — the empty-extraction run aborts at the primary store -/

/-- C10: when no line of the log matches the pattern, extraction yields zero
records and the run aborts inside `save_to_mongodb`: `insert_many` rejects
the empty document list with `TypeError("documents must be a non-empty
list")` (after `delete_many` has already cleared the collection), so the
relational store is never touched — the run does not complete with two empty
stores. -/
theorem c10_empty_extraction_aborts {lines : List (List Char)}
    (h : ∀ l ∈ lines, searchLine l = none)
    (mongo : List LogRecord) (db : SqliteDB) :
    extract_and_transform lines = Except.ok [] ∧
    mainPipeline lines mongo db = (some "documents must be a non-empty list", [], db) := by
  have hex : extract_and_transform lines = Except.ok [] := extract_all_nomatch h
  refine ⟨hex, ?_⟩
  simp [mainPipeline, hex, runStorePair, save_to_mongodb]

/-- Witness for C10: a two-line log with no `From ` line. -/
theorem c10_witness :
    extract_and_transform [("Subject: hello").data, ("plain text").data] =
      Except.ok [] ∧
    mainPipeline [("Subject: hello").data, ("plain text").data]
        [⟨("old@x").data, ("2020-01-01 00:00:00").data⟩] ⟨false, 0, []⟩ =
      (some "documents must be a non-empty list",
       [], ⟨false, 0, []⟩) := by
  exact c10_empty_extraction_aborts
    (by
      intro l hl
      simp only [List.mem_cons, List.not_mem_nil, or_false] at hl
      rcases hl with rfl | rfl
      · rfl
      · rfl)
    [⟨("old@x").data, ("2020-01-01 00:00:00").data⟩] ⟨false, 0, []⟩

/-- Witness for C6: a three-row table over two distinct days; the average is
`3 / 2`. -/
theorem c6_witness :
    (([⟨1, ("a@x.com").data, ("2024-01-05 09:08:07").data⟩,
       ⟨2, ("b@y.com").data, ("2024-01-05 10:00:00").data⟩,
       ⟨3, ("a@x.com").data, ("2024-01-06 09:00:00").data⟩] : List SqliteRow) ≠ []) ∧
    query10 [⟨1, ("a@x.com").data, ("2024-01-05 09:08:07").data⟩,
             ⟨2, ("b@y.com").data, ("2024-01-05 10:00:00").data⟩,
             ⟨3, ("a@x.com").data, ("2024-01-06 09:00:00").data⟩] =
      some ((query5 [⟨1, ("a@x.com").data, ("2024-01-05 09:08:07").data⟩,
                     ⟨2, ("b@y.com").data, ("2024-01-05 10:00:00").data⟩,
                     ⟨3, ("a@x.com").data, ("2024-01-06 09:00:00").data⟩] : ℚ) /
            ((query2 [⟨1, ("a@x.com").data, ("2024-01-05 09:08:07").data⟩,
                      ⟨2, ("b@y.com").data, ("2024-01-05 10:00:00").data⟩,
                      ⟨3, ("a@x.com").data, ("2024-01-06 09:00:00").data⟩]).length : ℚ)) := by
  refine ⟨by simp, ?_⟩
  exact (c6_average_per_day _ (by simp)).1
